import Mathlib

/-!
Verification of the meal_max battle engine (`meal_max/models/battle_model.py`
and `meal_max/models/kitchen_model.py`).

The Python code is shallowly embedded: floats become exact rationals (ℚ),
Python exceptions become explicit error values in `Except`, and the two
external collaborators — the entropy source (`get_random`) and the Stats
Updater (`update_meal_stats`, imported by `battle_model.py` but not defined
in the model files of the repository) — are passed in as explicit parameters.
The list of stats-updater calls made by `battle` is returned as an explicit
trace so that side-effect claims can be stated.
-/

namespace MealMax

/-- The outcome strings `win` / `loss` passed to `update_meal_stats`
in `BattleModel.battle`. -/
inductive Outcome where
  | win
  | loss
deriving DecidableEq, Repr

/-- Modelled from the spec: the Stats Updater collaborator
(`update_meal_stats` is imported by `battle_model.py` from
`kitchen_model`, but its body is not among the model files of the repository).
Per spec section 6 it may fail with `UnknownEntityError` on an id absent
from storage or `StorageError` on a transport/commit failure. -/
inductive StatsError where
  | unknownEntity
  | storage
deriving DecidableEq, Repr

/-- Errors raised by the battle-arena code, mirroring the Python
exceptions: `insufficientCombatants` and `combatantListFull` are the two
`ValueError`s raised in `battle` and `prep_combatant`; `keyError` is the
`KeyError` raised by the unguarded `difficulty_modifier[...]` dictionary
lookup in `get_battle_score` (carrying the missing key); `statsFailure`
is an exception propagating out of an `update_meal_stats` call. -/
inductive BattleError where
  | insufficientCombatants
  | combatantListFull
  | keyError (key : String)
  | statsFailure (e : StatsError)
deriving DecidableEq, Repr

/-- The `Meal` dataclass of `kitchen_model.py`: id, name (`meal`),
cuisine, price and difficulty. Python floats are embedded as exact
rationals. -/
structure Meal where
  id : Int
  meal : String
  cuisine : String
  price : ℚ
  difficulty : String
deriving DecidableEq, Repr

/-- `Meal.__post_init__` validation from `kitchen_model.py`: constructing
a `Meal` raises `ValueError` (carried here as the message string) when
`price < 0`, or when `difficulty` is not one of Easy, Medium, Hard; the
checks run in that order. On success the constructed dataclass is
returned. -/
def mkMeal (id : Int) (meal cuisine : String) (price : ℚ)
    (difficulty : String) : Except String Meal :=
  if price < 0 then
    Except.error "Price must be a positive value."
  else if difficulty ∉ (["Easy", "Medium", "Hard"] : List String) then
    Except.error "Difficulty must be Easy, Medium, or Hard."
  else
    Except.ok ⟨id, meal, cuisine, price, difficulty⟩

/-- The `difficulty_modifier` dictionary of `BattleModel.get_battle_score`,
as an association list. -/
def difficulty_modifier : List (String × ℚ) :=
  [("HIGH", 1), ("MED", 2), ("LOW", 3)]

/-- One recorded call to the Stats Updater: `update_meal_stats(id, outcome)`. -/
structure StatsCall where
  id : Int
  outcome : Outcome
deriving DecidableEq, Repr

/-- The `BattleModel` state of `battle_model.py`: the `combatants` list. -/
structure BattleModel where
  combatants : List Meal
deriving DecidableEq, Repr

/-- `BattleModel.__init__`: the combatants list starts empty. -/
def BattleModel.init : BattleModel := ⟨[]⟩

/-- `BattleModel.get_battle_score`: looks the difficulty of the combatant up
in the `difficulty_modifier` dictionary (a `KeyError` when absent, as in
the unguarded Python subscript) and returns
`price * len(cuisine) - difficulty_modifier[difficulty]`. -/
def get_battle_score (combatant : Meal) : Except BattleError ℚ :=
  match List.lookup combatant.difficulty difficulty_modifier with
  | some modifier =>
      Except.ok (combatant.price * (combatant.cuisine.length : ℚ) - modifier)
  | none => Except.error (BattleError.keyError combatant.difficulty)

/-- `BattleModel.battle`, with the entropy draw `r` (the value returned by
`get_random()`) and the Stats Updater behaviour `upd` (returning `none` on
success, `some e` when the call raises) passed in explicitly. The result
is the returned winner name (or the propagated error), the state of the
combatants list afterwards, and the trace of `update_meal_stats` calls
made, in order. Mirrors the Python line by line: the length guard, the
two score computations, `delta = abs(score_1 - score_2) / 100`, the
decision `delta > r` (combatant 1 wins) else combatant 2, the two stats
calls winner-first, and only then `combatants.remove(loser)`. -/
def battle (upd : Int → Outcome → Option StatsError) (st : BattleModel)
    (r : ℚ) : Except BattleError String × BattleModel × List StatsCall :=
  match st.combatants with
  | combatant_1 :: combatant_2 :: _ =>
    match get_battle_score combatant_1 with
    | Except.error e => (Except.error e, st, [])
    | Except.ok score_1 =>
      match get_battle_score combatant_2 with
      | Except.error e => (Except.error e, st, [])
      | Except.ok score_2 =>
        let delta : ℚ := |score_1 - score_2| / 100
        let wl : Meal × Meal :=
          if delta > r then (combatant_1, combatant_2)
          else (combatant_2, combatant_1)
        let winner := wl.1
        let loser := wl.2
        match upd winner.id Outcome.win with
        | some e =>
            (Except.error (BattleError.statsFailure e), st,
              [⟨winner.id, Outcome.win⟩])
        | none =>
          match upd loser.id Outcome.loss with
          | some e =>
              (Except.error (BattleError.statsFailure e), st,
                [⟨winner.id, Outcome.win⟩, ⟨loser.id, Outcome.loss⟩])
          | none =>
              (Except.ok winner.meal, ⟨st.combatants.erase loser⟩,
                [⟨winner.id, Outcome.win⟩, ⟨loser.id, Outcome.loss⟩])
  | _ => (Except.error BattleError.insufficientCombatants, st, [])

/-- A Stats Updater that always succeeds (as mocked in the tests of the repository). -/
def updOk : Int → Outcome → Option StatsError := fun _ _ => none

/-- `BattleModel.prep_combatant`: raises `ValueError` when the list
already holds two (or more) combatants, otherwise appends. -/
def prep_combatant (st : BattleModel) (combatant_data : Meal) :
    Except BattleError BattleModel :=
  if st.combatants.length ≥ 2 then
    Except.error BattleError.combatantListFull
  else
    Except.ok ⟨st.combatants ++ [combatant_data]⟩

/-- `BattleModel.clear_combatants`: empties the list. -/
def clear_combatants (_st : BattleModel) : BattleModel := ⟨[]⟩

/-- `BattleModel.get_combatants`: returns the list. -/
def get_combatants (st : BattleModel) : List Meal := st.combatants

/-- C1: for every combatant meal `m`, `get_battle_score m` succeeds and
equals `price(m) * length(cuisine(m))` minus the difficulty penalty
`HIGH → 1`, `MED → 2`, `LOW → 3`, whenever `difficulty(m)` is one of
HIGH, MED, LOW. -/
theorem score_formula (m : Meal) :
    (m.difficulty = "HIGH" →
      get_battle_score m = Except.ok (m.price * (m.cuisine.length : ℚ) - 1)) ∧
    (m.difficulty = "MED" →
      get_battle_score m = Except.ok (m.price * (m.cuisine.length : ℚ) - 2)) ∧
    (m.difficulty = "LOW" →
      get_battle_score m = Except.ok (m.price * (m.cuisine.length : ℚ) - 3)) := by
  refine ⟨fun h => ?_, fun h => ?_, fun h => ?_⟩ <;>
    simp [get_battle_score, difficulty_modifier, h, List.lookup]

/-- Witness for C1: the concrete scenario of the spec, meal A with price 12.99,
cuisine "Italian" (7 characters), difficulty MED, scores 12.99 × 7 − 2. -/
theorem score_formula_witness :
    get_battle_score ⟨1, "Spaghetti", "Italian", 1299/100, "MED"⟩ =
      Except.ok (1299/100 * 7 - 2) := by
  have h := (score_formula ⟨1, "Spaghetti", "Italian", 1299/100, "MED"⟩).2.1 rfl
  simpa using h

/-- A difficulty outside the scoring table has no entry in
`difficulty_modifier`. -/
lemma lookup_difficulty_eq_none (d : String)
    (h : d ∉ (["HIGH", "MED", "LOW"] : List String)) :
    List.lookup d difficulty_modifier = none := by
  simp only [List.mem_cons, List.not_mem_nil, or_false, not_or] at h
  obtain ⟨h1, h2, h3⟩ := h
  have e1 : (d == "HIGH") = false := beq_eq_false_iff_ne.mpr h1
  have e2 : (d == "MED") = false := beq_eq_false_iff_ne.mpr h2
  have e3 : (d == "LOW") = false := beq_eq_false_iff_ne.mpr h3
  simp [difficulty_modifier, List.lookup, e1, e2, e3]

/-- `get_battle_score` on a difficulty outside the table raises the
`KeyError`. -/
lemma get_battle_score_eq_error (m : Meal)
    (h : m.difficulty ∉ (["HIGH", "MED", "LOW"] : List String)) :
    get_battle_score m = Except.error (BattleError.keyError m.difficulty) := by
  simp [get_battle_score, lookup_difficulty_eq_none m.difficulty h]

/-- C7: for every combatant whose difficulty is not one of HIGH, MED,
LOW, `get_battle_score` fails with a `KeyError` (called
`UnknownDifficultyError` in the spec), regardless of price or cuisine. -/
theorem score_unknown_difficulty (m : Meal)
    (h : m.difficulty ∉ (["HIGH", "MED", "LOW"] : List String)) :
    get_battle_score m = Except.error (BattleError.keyError m.difficulty) :=
  get_battle_score_eq_error m h

/-- Witness for C7: a meal with the construction-time difficulty label
"Medium" is rejected by the scoring table. -/
theorem score_unknown_difficulty_witness :
    get_battle_score ⟨1, "Spaghetti", "Italian", 1299/100, "Medium"⟩ =
      Except.error (BattleError.keyError "Medium") :=
  score_unknown_difficulty ⟨1, "Spaghetti", "Italian", 1299/100, "Medium"⟩
    (by decide)

/-- C2: with two staged combatants `c1, c2` in insertion order whose
scores are `s1, s2` and entropy draw `r`, the battle returns the name of `c1`
when `|s1 - s2| / 100 > r` and the name of `c2` otherwise (ties included). -/
theorem battle_decision_rule (st : BattleModel) (c1 c2 : Meal)
    (rest : List Meal) (r s1 s2 : ℚ)
    (hc : st.combatants = c1 :: c2 :: rest)
    (h1 : get_battle_score c1 = Except.ok s1)
    (h2 : get_battle_score c2 = Except.ok s2) :
    (|s1 - s2| / 100 > r → (battle updOk st r).1 = Except.ok c1.meal) ∧
    (¬ |s1 - s2| / 100 > r → (battle updOk st r).1 = Except.ok c2.meal) := by
  constructor <;> intro hd <;> simp [battle, hc, h1, h2, updOk, hd]

/-- Witness for C2: the two concrete scenarios of the spec. Meal A
(price 12.99, cuisine "Italian", MED) scores 88.93 and meal B
(price 9.99, cuisine "American", LOW) scores 76.92; delta is 0.1201.
With draw 0.5 combatant 2 (B) wins; with draw 0.05 combatant 1 (A)
wins. -/
theorem battle_decision_rule_witness :
    (battle updOk ⟨[⟨1, "A", "Italian", 1299/100, "MED"⟩,
      ⟨2, "B", "American", 999/100, "LOW"⟩]⟩ (5/100)).1 = Except.ok "A" ∧
    (battle updOk ⟨[⟨1, "A", "Italian", 1299/100, "MED"⟩,
      ⟨2, "B", "American", 999/100, "LOW"⟩]⟩ (1/2)).1 = Except.ok "B" := by
  have habs : |(8893:ℚ)/100 - 7692/100| = 1201/100 := by
    rw [abs_of_pos] <;> norm_num
  have hA : get_battle_score ⟨1, "A", "Italian", 1299/100, "MED"⟩ =
      Except.ok (8893/100) := by
    simp [get_battle_score, difficulty_modifier, List.lookup,
      show ("Italian".length) = 7 from rfl]
    norm_num
  have hB : get_battle_score ⟨2, "B", "American", 999/100, "LOW"⟩ =
      Except.ok (7692/100) := by
    simp [get_battle_score, difficulty_modifier, List.lookup,
      show ("American".length) = 8 from rfl]
    norm_num
  constructor
  · exact (battle_decision_rule
      ⟨[⟨1, "A", "Italian", 1299/100, "MED"⟩,
        ⟨2, "B", "American", 999/100, "LOW"⟩]⟩
      ⟨1, "A", "Italian", 1299/100, "MED"⟩
      ⟨2, "B", "American", 999/100, "LOW"⟩ [] (5/100)
      (8893/100) (7692/100) rfl hA hB).1 (by rw [habs]; norm_num)
  · exact (battle_decision_rule
      ⟨[⟨1, "A", "Italian", 1299/100, "MED"⟩,
        ⟨2, "B", "American", 999/100, "LOW"⟩]⟩
      ⟨1, "A", "Italian", 1299/100, "MED"⟩
      ⟨2, "B", "American", 999/100, "LOW"⟩ [] (1/2)
      (8893/100) (7692/100) rfl hA hB).2 (by rw [habs]; norm_num)

/-- C4: with fewer than two staged combatants, `battle` fails with the
insufficient-combatants `ValueError`, the combatant list is unchanged,
and the Stats Updater is never called — for any updater behaviour and
any entropy draw. -/
theorem battle_insufficient (upd : Int → Outcome → Option StatsError)
    (st : BattleModel) (r : ℚ) (h : st.combatants.length < 2) :
    battle upd st r =
      (Except.error BattleError.insufficientCombatants, st, []) := by
  obtain ⟨combs⟩ := st
  cases combs with
  | nil => rfl
  | cons a t =>
    cases t with
    | nil => rfl
    | cons b t2 =>
      simp only [List.length_cons] at h
      omega

/-- Witness for C4: resolving with a single staged combatant fails and
leaves the state alone. -/
theorem battle_insufficient_witness :
    battle updOk ⟨[⟨1, "A", "Italian", 1299/100, "MED"⟩]⟩ (1/2) =
      (Except.error BattleError.insufficientCombatants,
        ⟨[⟨1, "A", "Italian", 1299/100, "MED"⟩]⟩, []) :=
  battle_insufficient updOk ⟨[⟨1, "A", "Italian", 1299/100, "MED"⟩]⟩ (1/2)
    (by decide)

/-- C9: for every price and cuisine, the score with difficulty HIGH
exceeds the score with the same price and cuisine but difficulty LOW by
exactly 2. -/
theorem score_high_exceeds_low (i : Int) (n cu : String) (p : ℚ) :
    ∃ sH sL : ℚ,
      get_battle_score ⟨i, n, cu, p, "HIGH"⟩ = Except.ok sH ∧
      get_battle_score ⟨i, n, cu, p, "LOW"⟩ = Except.ok sL ∧
      sH = sL + 2 := by
  refine ⟨p * (cu.length : ℚ) - 1, p * (cu.length : ℚ) - 3, ?_, ?_, by ring⟩ <;>
    simp [get_battle_score, difficulty_modifier, List.lookup]

/-- Erasing the second of two listed combatants leaves exactly the
first, also when the two are equal as values (the Python `list.remove`
removes the first equal element). -/
lemma erase_pair_snd (c1 c2 : Meal) : ([c1, c2].erase c2) = [c1] := by
  by_cases h12 : c1 = c2
  · subst h12
    simp [List.erase_cons_head]
  · rw [List.erase_cons_tail, List.erase_cons_head]
    simp [h12]

/-- C3: from a state whose combatant list is exactly `[c1, c2]`, a
successful battle (scores computed, both stats calls succeed) returns
the display name of the winner, leaves the combatant list `[winner]` (length
one, containing the winner), and the trace records exactly two Stats
Updater calls: win for the id of the winner, then loss for the id of the loser. -/
theorem battle_success_postcondition (st : BattleModel) (c1 c2 : Meal)
    (r s1 s2 : ℚ)
    (hc : st.combatants = [c1, c2])
    (h1 : get_battle_score c1 = Except.ok s1)
    (h2 : get_battle_score c2 = Except.ok s2) :
    (|s1 - s2| / 100 > r →
      battle updOk st r = (Except.ok c1.meal, ⟨[c1]⟩,
        [⟨c1.id, Outcome.win⟩, ⟨c2.id, Outcome.loss⟩])) ∧
    (¬ |s1 - s2| / 100 > r →
      battle updOk st r = (Except.ok c2.meal, ⟨[c2]⟩,
        [⟨c2.id, Outcome.win⟩, ⟨c1.id, Outcome.loss⟩])) := by
  have e2 : ([c1, c2].erase c2) = [c1] := erase_pair_snd c1 c2
  have e1 : ([c1, c2].erase c1) = [c2] := List.erase_cons_head c1 [c2]
  constructor <;> intro hd
  · simp [battle, hc, h1, h2, updOk, hd, e2]
  · simp [battle, hc, h1, h2, updOk, hd, e1]

/-- Witness for C3: the concrete scenario of the spec with draw 0.5 — B wins,
the list afterwards is exactly `[B]`, and the trace is win for id 2 then
loss for id 1. -/
theorem battle_success_postcondition_witness :
    battle updOk ⟨[⟨1, "A", "Italian", 1299/100, "MED"⟩,
      ⟨2, "B", "American", 999/100, "LOW"⟩]⟩ (1/2) =
      (Except.ok "B", ⟨[⟨2, "B", "American", 999/100, "LOW"⟩]⟩,
        [⟨2, Outcome.win⟩, ⟨1, Outcome.loss⟩]) := by
  have habs : |(8893:ℚ)/100 - 7692/100| = 1201/100 := by
    rw [abs_of_pos] <;> norm_num
  have hA : get_battle_score ⟨1, "A", "Italian", 1299/100, "MED"⟩ =
      Except.ok (8893/100) := by
    simp [get_battle_score, difficulty_modifier, List.lookup,
      show ("Italian".length) = 7 from rfl]
    norm_num
  have hB : get_battle_score ⟨2, "B", "American", 999/100, "LOW"⟩ =
      Except.ok (7692/100) := by
    simp [get_battle_score, difficulty_modifier, List.lookup,
      show ("American".length) = 8 from rfl]
    norm_num
  exact (battle_success_postcondition
    ⟨[⟨1, "A", "Italian", 1299/100, "MED"⟩,
      ⟨2, "B", "American", 999/100, "LOW"⟩]⟩
    ⟨1, "A", "Italian", 1299/100, "MED"⟩
    ⟨2, "B", "American", 999/100, "LOW"⟩ (1/2)
    (8893/100) (7692/100) rfl hA hB).2 (by rw [habs]; norm_num)

/-- On every control path, `battle` leaves the combatants list either
unchanged or with exactly one element removed by `list.remove`. -/
lemma battle_state_shape (upd : Int → Outcome → Option StatsError)
    (st : BattleModel) (r : ℚ) :
    (battle upd st r).2.1 = st ∨
    ∃ m, (battle upd st r).2.1 = ⟨st.combatants.erase m⟩ := by
  unfold battle
  split
  · split
    · left; rfl
    · split
      · left; rfl
      · dsimp only
        split
        · left; rfl
        · split
          · left; rfl
          · right; exact ⟨_, rfl⟩
  · left; rfl

/-- C5: the combatant list never exceeds length 2. Staging into a full
list fails with the capacity `ValueError` (nothing is added, as the
failing branch returns before the append); a successful stage, any
battle outcome, and clear all preserve the invariant `length ≤ 2`. -/
theorem combatant_capacity_invariant (st : BattleModel) (c : Meal)
    (hle : st.combatants.length ≤ 2) :
    (st.combatants.length = 2 →
      prep_combatant st c = Except.error BattleError.combatantListFull) ∧
    (∀ st2, prep_combatant st c = Except.ok st2 →
      st2.combatants.length ≤ 2) ∧
    (∀ upd r, (battle upd st r).2.1.combatants.length ≤ 2) ∧
    (clear_combatants st).combatants.length ≤ 2 := by
  refine ⟨fun h2 => ?_, fun st2 hok => ?_, fun upd r => ?_,
    by simp [clear_combatants]⟩
  · simp [prep_combatant, h2]
  · unfold prep_combatant at hok
    by_cases hfull : st.combatants.length ≥ 2
    · rw [if_pos hfull] at hok
      simp at hok
    · rw [if_neg hfull] at hok
      rw [Except.ok.injEq] at hok
      subst hok
      show (st.combatants ++ [c]).length ≤ 2
      simp only [List.length_append, List.length_cons, List.length_nil]
      omega
  · rcases battle_state_shape upd st r with h | ⟨m, h⟩
    · rw [h]; exact hle
    · rw [h]
      exact le_trans (List.erase_sublist m st.combatants).length_le hle

/-- Witness for C5: with two combatants staged, a third stage attempt
fails, a battle leaves at most two, and clear leaves at most two. -/
theorem combatant_capacity_invariant_witness :
    prep_combatant ⟨[⟨1, "A", "Italian", 1299/100, "MED"⟩,
        ⟨2, "B", "American", 999/100, "LOW"⟩]⟩
        ⟨3, "C", "French", 5, "HIGH"⟩ =
      Except.error BattleError.combatantListFull ∧
    (battle updOk ⟨[⟨1, "A", "Italian", 1299/100, "MED"⟩,
        ⟨2, "B", "American", 999/100, "LOW"⟩]⟩
        (1/2)).2.1.combatants.length ≤ 2 ∧
    (clear_combatants ⟨[⟨1, "A", "Italian", 1299/100, "MED"⟩,
        ⟨2, "B", "American", 999/100, "LOW"⟩]⟩).combatants.length ≤ 2 := by
  have h := combatant_capacity_invariant
    ⟨[⟨1, "A", "Italian", 1299/100, "MED"⟩,
      ⟨2, "B", "American", 999/100, "LOW"⟩]⟩
    ⟨3, "C", "French", 5, "HIGH"⟩ (by simp)
  exact ⟨h.1 (by simp), h.2.2.1 updOk (1/2), h.2.2.2⟩

/-- C6: `Meal.__post_init__` validation — a negative price always fails
with the `ValueError` (called `InvalidAttributeError` in the spec), an
unrecognized difficulty label always fails likewise, and a nonnegative
price with a recognized label always succeeds, returning exactly the
constructed value (no other effect). -/
theorem meal_construction_validation (id : Int) (name cuisine : String)
    (price : ℚ) (difficulty : String) :
    (price < 0 →
      ∃ msg, mkMeal id name cuisine price difficulty = Except.error msg) ∧
    (difficulty ∉ (["Easy", "Medium", "Hard"] : List String) →
      ∃ msg, mkMeal id name cuisine price difficulty = Except.error msg) ∧
    (0 ≤ price → difficulty ∈ (["Easy", "Medium", "Hard"] : List String) →
      mkMeal id name cuisine price difficulty =
        Except.ok ⟨id, name, cuisine, price, difficulty⟩) := by
  refine ⟨fun h => ?_, fun h => ?_, fun h1 h2 => ?_⟩
  · exact ⟨"Price must be a positive value.", by simp [mkMeal, h]⟩
  · by_cases hp : price < 0
    · exact ⟨"Price must be a positive value.", by simp [mkMeal, hp]⟩
    · exact ⟨"Difficulty must be Easy, Medium, or Hard.",
        by simp [mkMeal, hp, h]⟩
  · simp [mkMeal, not_lt.mpr h1, h2]

/-- Witness for C6: a negative price is rejected, an out-of-set label is
rejected, and a valid combination constructs the meal. -/
theorem meal_construction_validation_witness :
    (∃ msg, mkMeal 1 "Spaghetti" "Italian" (-1) "Easy" =
      Except.error msg) ∧
    (∃ msg, mkMeal 1 "Spaghetti" "Italian" 2 "MED" =
      Except.error msg) ∧
    mkMeal 1 "Spaghetti" "Italian" (1299/100) "Medium" =
      Except.ok ⟨1, "Spaghetti", "Italian", 1299/100, "Medium"⟩ :=
  ⟨(meal_construction_validation 1 "Spaghetti" "Italian" (-1) "Easy").1
      (by norm_num),
    (meal_construction_validation 1 "Spaghetti" "Italian" 2 "MED").2.1
      (by decide),
    (meal_construction_validation 1 "Spaghetti" "Italian" (1299/100)
      "Medium").2.2 (by norm_num) (by decide)⟩

/-- Inversion of a successful `Meal` construction: the stored difficulty
is the argument, and it lies in the construction-time label set. -/
lemma mkMeal_ok_inv (i : Int) (n cu : String) (p : ℚ) (d : String)
    (m : Meal) (hm : mkMeal i n cu p d = Except.ok m) :
    m.difficulty = d ∧ d ∈ (["Easy", "Medium", "Hard"] : List String) := by
  unfold mkMeal at hm
  split_ifs at hm with hp hd
  cases hm
  exact ⟨rfl, by simpa using hd⟩

/-- The construction-time labels are all absent from the battle-time
penalty table. -/
lemma construction_label_not_in_table (d : String)
    (h : d ∈ (["Easy", "Medium", "Hard"] : List String)) :
    d ∉ (["HIGH", "MED", "LOW"] : List String) := by
  simp only [List.mem_cons, List.not_mem_nil, or_false] at h
  rcases h with h | h | h <;> subst h <;> decide

/-- C8: every meal that passes construction validation carries a
difficulty outside the scoring table, so `get_battle_score` raises the
`KeyError` on it and never returns a value; `battle` on two
constructible combatants raises while scoring the first combatant —
before any stats call and with the combatant list untouched. -/
theorem constructible_meal_never_scores
    (i1 i2 : Int) (n1 cu1 n2 cu2 : String) (p1 p2 : ℚ) (d1 d2 : String)
    (m1 m2 : Meal)
    (hm1 : mkMeal i1 n1 cu1 p1 d1 = Except.ok m1)
    (_hm2 : mkMeal i2 n2 cu2 p2 d2 = Except.ok m2) :
    get_battle_score m1 = Except.error (BattleError.keyError m1.difficulty) ∧
    (∀ upd st r rest, st.combatants = m1 :: m2 :: rest →
      battle upd st r =
        (Except.error (BattleError.keyError m1.difficulty), st, [])) := by
  obtain ⟨hd1eq, hd1mem⟩ := mkMeal_ok_inv i1 n1 cu1 p1 d1 m1 hm1
  have hnot : m1.difficulty ∉ (["HIGH", "MED", "LOW"] : List String) := by
    rw [hd1eq]; exact construction_label_not_in_table d1 hd1mem
  have hs := get_battle_score_eq_error m1 hnot
  refine ⟨hs, fun upd st r rest hc => ?_⟩
  simp [battle, hc, hs]

/-- Witness for C8: two meals constructed with the valid labels Medium
and Hard; scoring the first raises, and the battle raises with no stats
calls and the list unchanged. -/
theorem constructible_meal_never_scores_witness :
    get_battle_score ⟨1, "Spaghetti", "Italian", 1299/100, "Medium"⟩ =
      Except.error (BattleError.keyError "Medium") ∧
    battle updOk
      ⟨[⟨1, "Spaghetti", "Italian", 1299/100, "Medium"⟩,
        ⟨2, "Burger", "American", 999/100, "Hard"⟩]⟩ (1/2) =
      (Except.error (BattleError.keyError "Medium"),
        ⟨[⟨1, "Spaghetti", "Italian", 1299/100, "Medium"⟩,
          ⟨2, "Burger", "American", 999/100, "Hard"⟩]⟩, []) := by
  have h := constructible_meal_never_scores 1 2 "Spaghetti" "Italian"
    "Burger" "American" (1299/100) (999/100) "Medium" "Hard"
    ⟨1, "Spaghetti", "Italian", 1299/100, "Medium"⟩
    ⟨2, "Burger", "American", 999/100, "Hard"⟩
    (by norm_num [mkMeal]) (by norm_num [mkMeal])
  exact ⟨h.1, h.2 updOk _ (1/2) [] rfl⟩

/-- C10: with two staged combatants and both scores computed, when the
win report for the winner succeeds but the loss report for the loser fails, `battle`
propagates the stats failure and the combatant list is unchanged — both
combatants are still staged in insertion order, even though the win was
already reported (the trace records both attempted calls). -/
theorem battle_loss_report_failure (st : BattleModel) (c1 c2 : Meal)
    (rest : List Meal) (r s1 s2 : ℚ)
    (upd : Int → Outcome → Option StatsError) (e : StatsError)
    (hc : st.combatants = c1 :: c2 :: rest)
    (h1 : get_battle_score c1 = Except.ok s1)
    (h2 : get_battle_score c2 = Except.ok s2) :
    (|s1 - s2| / 100 > r →
      upd c1.id Outcome.win = none → upd c2.id Outcome.loss = some e →
      battle upd st r = (Except.error (BattleError.statsFailure e), st,
        [⟨c1.id, Outcome.win⟩, ⟨c2.id, Outcome.loss⟩])) ∧
    (¬ |s1 - s2| / 100 > r →
      upd c2.id Outcome.win = none → upd c1.id Outcome.loss = some e →
      battle upd st r = (Except.error (BattleError.statsFailure e), st,
        [⟨c2.id, Outcome.win⟩, ⟨c1.id, Outcome.loss⟩])) := by
  constructor <;> intro hd hw hl <;> simp [battle, hc, h1, h2, hd, hw, hl]

/-- Witness for C10: a Stats Updater that succeeds on win reports and
raises `StorageError` on loss reports; with draw 0.5, B wins, the win is
reported, the loss report fails, and both combatants remain staged in
insertion order. -/
theorem battle_loss_report_failure_witness :
    battle (fun _ o => match o with
        | Outcome.win => none
        | Outcome.loss => some StatsError.storage)
      ⟨[⟨1, "A", "Italian", 1299/100, "MED"⟩,
        ⟨2, "B", "American", 999/100, "LOW"⟩]⟩ (1/2) =
      (Except.error (BattleError.statsFailure StatsError.storage),
        ⟨[⟨1, "A", "Italian", 1299/100, "MED"⟩,
          ⟨2, "B", "American", 999/100, "LOW"⟩]⟩,
        [⟨2, Outcome.win⟩, ⟨1, Outcome.loss⟩]) := by
  have habs : |(8893:ℚ)/100 - 7692/100| = 1201/100 := by
    rw [abs_of_pos] <;> norm_num
  have hA : get_battle_score ⟨1, "A", "Italian", 1299/100, "MED"⟩ =
      Except.ok (8893/100) := by
    simp [get_battle_score, difficulty_modifier, List.lookup,
      show ("Italian".length) = 7 from rfl]
    norm_num
  have hB : get_battle_score ⟨2, "B", "American", 999/100, "LOW"⟩ =
      Except.ok (7692/100) := by
    simp [get_battle_score, difficulty_modifier, List.lookup,
      show ("American".length) = 8 from rfl]
    norm_num
  exact (battle_loss_report_failure
    ⟨[⟨1, "A", "Italian", 1299/100, "MED"⟩,
      ⟨2, "B", "American", 999/100, "LOW"⟩]⟩
    ⟨1, "A", "Italian", 1299/100, "MED"⟩
    ⟨2, "B", "American", 999/100, "LOW"⟩ [] (1/2)
    (8893/100) (7692/100)
    (fun _ o => match o with
      | Outcome.win => none
      | Outcome.loss => some StatsError.storage)
    StatsError.storage rfl hA hB).2 (by rw [habs]; norm_num) rfl rfl

end MealMax
